import Mathlib

/-
Verification development for samers.py, the source-duplication checker and
copyright-notice inserter of the workspace-ONE-SDK-integration-samples
repository (IntegrationGuideForAndroid/Apps/samers.py).

Embedding conventions:

- Filesystem paths are abstracted to strings (FPath).  The filesystem itself
  is passed in as explicit functions: a glob function for glob_each and a
  read function giving the list of lines of a file for diff_each.
- File contents are modelled as lists of lines.  Each abstract line stands
  for one physical line without its terminating newline, and files are
  assumed to be newline terminated (or empty).  The notice lines produced by
  the NoticesEditor constructor are stripped, hence free of newlines, so
  substring containment of a notice line in a physical line agrees with
  containment in the abstract line.
- Paths reaching NoticesEditor.check and NoticesEditor.insert are abstracted
  to their effective suffix (the value of NoticesEditor effective suffix
  computation: the suffix of the file name, or the whole name for dot files
  such as .gitignore), which is the only attribute those functions consult.
- difflib.context_diff from the Python standard library (not repository
  code) is modelled by its emptiness contract: it returns no lines exactly
  when the two line sequences are equal, and a non-empty header block
  otherwise.  Every use in samers.py only distinguishes empty from
  non-empty output, except for verbose printing of the diff text, about
  which no claim is made.
- Generators are modelled by the finite trace they produce: the list of
  yielded values paired with an optional raised error.
- The interactive overwrite prompt loop of DuplicatorJob is abstracted by a
  boolean accept parameter giving the outcome of the prompt (true for the
  yes flag or a user acceptance, false for a decline).
- Python runtime errors (ValueError, UnboundLocalError, RuntimeError,
  TypeError) are modelled by an explicit error type returned in Except.
-/

namespace Samers

/-- Abstract filesystem path. -/
abbrev FPath := String

/-- Characters treated as whitespace by Python str.strip with no argument:
space, tab, newline, carriage return, vertical tab and form feed. -/
def pyWs (c : Char) : Bool :=
  c == ' ' || c == '\t' || c == '\n' || c == '\r' || c == '\x0b' || c == '\x0c'

/-- Model of Python str.strip with no argument: remove leading and trailing
whitespace. -/
def pystrip (s : String) : String :=
  String.mk (((s.toList.dropWhile pyWs).reverse.dropWhile pyWs).reverse)

/-- Helper for substring containment on character lists: true when the
needle occurs as a contiguous sublist of the haystack. -/
def strContainsAux (needle : List Char) : List Char → Bool
  | [] => needle.isEmpty
  | c :: cs => needle.isPrefixOf (c :: cs) || strContainsAux needle cs

/-- Model of the Python test line.find(needle) >= 0: substring
containment. -/
def strContains (hay needle : String) : Bool :=
  strContainsAux needle.toList hay.toList

/-- Model of Python str.startswith. -/
def strStartsWith (s p : String) : Bool :=
  p.toList.isPrefixOf s.toList

/-- Model of the Python format specification with right alignment in a
field of the given width, as in the OK report line of diff_all. -/
def rjust (s : String) (w : Nat) : String :=
  String.mk (List.replicate (w - s.length) ' ') ++ s

/-- Errors raised by samers.py code paths modelled in this development. -/
inductive PyError where
  | unboundLocal (msg : String)
  | runtimeError (msg : String)
  | typeError (msg : String)
  deriving DecidableEq

/-- Configuration errors raised by glob_each (ValueError in the source),
carrying the data interpolated into the message. -/
inductive GlobError where
  | noMatch (pattern : String)
  | oneMatch (pattern : String) (path : FPath)
  deriving DecidableEq

/-- Message text of a glob_each ValueError (samers.py lines 56 and 58). -/
def globErrorStr : GlobError → String
  | GlobError.noMatch pattern => "Failed, no match for \"" ++ pattern ++ "\"."
  | GlobError.oneMatch pattern path =>
      "Failed, only one match for \"" ++ pattern ++ "\": " ++ path ++ "."

/-- Model of glob_each (samers.py lines 48 to 59).  The filesystem is the
glob function argument.  The generator is modelled by its trace: the first
component collects every yielded match in order, the second is the error
raised after a pattern resolved to zero matches or to exactly one match.
Matches of a pattern are yielded one by one before the count of that
pattern is examined, so the matches of a failing pattern appear in the
trace ahead of the error. -/
def glob_each (glob : String → List FPath) : List String → List FPath × Option GlobError
  | [] => ([], none)
  | pattern :: rest =>
    match glob pattern with
    | [] => ([], some (GlobError.noMatch pattern))
    | [m] => ([m], some (GlobError.oneMatch pattern m))
    | found =>
      (found ++ (glob_each glob rest).1, (glob_each glob rest).2)

/-- Model of difflib.context_diff restricted to its emptiness contract: the
output is empty exactly when the inputs are equal, and otherwise starts
with a header block naming the two files.  The from and to labels are the
strings interpolated at the call sites in samers.py. -/
def context_diff (fromfile tofile : String) (a b : List String) : List String :=
  if a = b then []
  else ["*** " ++ fromfile ++ "\n", "--- " ++ tofile ++ "\n"]

/-- Loop body of diff_each after the baseline is fixed (samers.py lines 214
to 230): paths equal to the baseline are skipped, every other path yields a
tuple of baseline, path and the diff when non-empty or an absent marker. -/
def diff_each_go (read : FPath → List String) (pathLeft : FPath)
    (linesLeft : List String) :
    List FPath → List (FPath × FPath × Option (List String))
  | [] => []
  | p :: rest =>
    if p = pathLeft then diff_each_go read pathLeft linesLeft rest
    else
      (pathLeft, p,
        if 0 < (context_diff pathLeft p linesLeft (read p)).length then
          some (context_diff pathLeft p linesLeft (read p))
        else none) :: diff_each_go read pathLeft linesLeft rest

/-- Model of diff_each (samers.py lines 207 to 230).  When no explicit left
path is supplied the first path of the sequence becomes the baseline and
produces no tuple itself. -/
def diff_each (read : FPath → List String) (paths : List FPath)
    (pathLeft : Option FPath) : List (FPath × FPath × Option (List String)) :=
  match pathLeft with
  | some pl => diff_each_go read pl (read pl) paths
  | none =>
    match paths with
    | [] => []
    | p :: rest => diff_each_go read p (read p) rest

/-- Suffixes exempt from notice checking (NoticesEditor, samers.py line
239). -/
def exempt_suffixes : List String := [".png"]

/-- Comment leader table of NoticesEditor (samers.py lines 234 to 237). -/
def leader_suffixes_map : List (String × List String) :=
  [("#", [".gitignore", ".pro", ".properties", ".py"]),
   ("//", [".gradle", ".java", ".kt"])]

/-- Suffixes with a custom editor (samers.py line 241).  The source maps
the suffix .xml to the method name xml_editor and resolves it by reflection;
the dispatch is modelled directly in insert below. -/
def custom_suffixes : List String := [".xml"]

/-- Leader lookup loop of insert (samers.py lines 290 to 293): the first
table entry whose suffix list contains the suffix provides the comment
leader; none when the loop finds nothing, in which case the commentLead
variable stays unbound. -/
def findLeader (suffix : String) : Option String :=
  (leader_suffixes_map.find? (fun entry => entry.2.contains suffix)).map
    (fun entry => entry.1)

/-- XML rendering of the notices computed by the NoticesEditor constructor
(samers.py lines 247 to 248), as the list of lines it contributes: an XML
comment opener, each notice line indented by four spaces, and the comment
closer.  The rendered string ends with a newline, so in the line model it
is exactly this list. -/
def noticesXML (notices : List String) : List String :=
  "<!--" :: (notices.map (fun line => "    " ++ line) ++ ["-->"])

/-- Scanning loop of check (samers.py lines 257 to 270).  For each file
line the source first indexes the notice list at linesFound, returning OK
on IndexError, and otherwise advances linesFound when the current notice
line occurs in the file line.  After the loop the result is not OK with
the count reached. -/
def checkLoop (notices : List String) : List String → Nat → Bool × Nat
  | [], linesFound => (false, linesFound)
  | line :: rest, linesFound =>
    match notices[linesFound]? with
    | none => (true, linesFound)
    | some needle =>
      if strContains line needle then checkLoop notices rest (linesFound + 1)
      else checkLoop notices rest linesFound

/-- Model of NoticesEditor.check (samers.py lines 250 to 270), taking the
effective suffix of the path and the file content.  Exempt suffixes return
OK with no count; otherwise the scanning loop runs from count zero. -/
def check (notices : List String) (suffix : String) (fileLines : List String) :
    Bool × Option Nat :=
  if suffix ∈ exempt_suffixes then (true, none)
  else ((checkLoop notices fileLines 0).1, some (checkLoop notices fileLines 0).2)

/-- Model of the leader editor (samers.py lines 315 to 325): each notice
line prefixed by the comment leader and a space, then the original file,
preceded by one blank line when the first original line does not strip to
the empty string.  An empty original file contributes nothing after the
notice lines. -/
def leader_editor (notices : List String) (commentLead : String)
    (original : List String) : List String :=
  notices.map (fun line => commentLead ++ " " ++ line) ++
    match original with
    | [] => []
    | first :: rest =>
      if pystrip first = "" then first :: rest else "" :: first :: rest

/-- Model of the XML editor (samers.py lines 346 to 357): when the first
line starts with an XML declaration marker the notices comment follows it,
otherwise the comment comes first; the remaining lines are copied
unchanged.  On an empty file only the comment is written. -/
def xml_editor (notices : List String) (original : List String) : List String :=
  match original with
  | [] => noticesXML notices
  | first :: rest =>
    if strStartsWith first "<?xml" then first :: (noticesXML notices ++ rest)
    else noticesXML notices ++ first :: rest

/-- Message of the Python UnboundLocalError raised when insert reaches the
leader editor with no comment leader assigned. -/
def commentLeadUnboundMsg : String :=
  "local variable \x27commentLead\x27 referenced before assignment"

/-- Model of NoticesEditor.insert (samers.py lines 278 to 307), taking the
effective suffix and the original content and returning the edited content.
The source looks up a custom editor by suffix, then the comment leader, and
uses the custom editor when present and the leader editor otherwise; when
neither exists the leader editor call raises UnboundLocalError because the
commentLead variable was never assigned. -/
def insert (notices : List String) (suffix : String) (original : List String) :
    Except PyError (List String) :=
  if suffix ∈ custom_suffixes then Except.ok (xml_editor notices original)
  else
    match findLeader suffix with
    | some commentLead => Except.ok (leader_editor notices commentLead original)
    | none => Except.error (PyError.unboundLocal commentLeadUnboundMsg)

/-- Candidate file of the notice insertion workflow: its path, whether it
is a directory, its effective suffix and its content lines. -/
structure Candidate where
  path : FPath
  isDir : Bool
  suffix : String
  content : List String
  deriving DecidableEq

/-- Message of the Python TypeError raised when an integer and None are
added. -/
def pyAddNoneMsg : String :=
  "unsupported operand type(s) for +=: \x27int\x27 and \x27NoneType\x27"

/-- Model of DuplicatorJob notices business (samers.py lines 464 to 496)
for one candidate.  A directory returns the Python None (modelled by
Option none) from the bare return statement.  Otherwise check runs; an OK
file contributes zero edits; in counting mode a failing file contributes
one without editing; otherwise insert produces the edited content, the
overwrite prompt is consulted when the diff is non-empty, and after an
accepted overwrite check must pass on the new content or a RuntimeError is
raised.  Printing is omitted. -/
def notices_business (notices : List String) (counting accept : Bool)
    (c : Candidate) : Except PyError (Option Nat) :=
  if c.isDir then Except.ok none
  else if (check notices c.suffix c.content).1 then Except.ok (some 0)
  else if counting then Except.ok (some 1)
  else
    match insert notices c.suffix c.content with
    | Except.error e => Except.error e
    | Except.ok edited =>
      if (context_diff c.path "Edited" c.content edited).isEmpty then
        Except.ok (some 0)
      else if accept then
        if (check notices c.suffix edited).1 then Except.ok (some 1)
        else Except.error
          (PyError.runtimeError "Overwritten file doesn\x27t have notices.")
      else Except.ok (some 0)

/-- Candidate loop of DuplicatorJob call in notice mode (samers.py lines
444 to 457): the checked counter is incremented for every candidate and
the business result is added to the edited counter.  Adding the None
returned for a directory to the integer counter raises a TypeError. -/
def notices_run_go (notices : List String) (counting accept : Bool)
    (checked edited : Nat) : List Candidate → Except PyError (Nat × Nat)
  | [] => Except.ok (checked, edited)
  | c :: rest =>
    match notices_business notices counting accept c with
    | Except.error e => Except.error e
    | Except.ok none => Except.error (PyError.typeError pyAddNoneMsg)
    | Except.ok (some k) =>
        notices_run_go notices counting accept (checked + 1) (edited + k) rest

/-- Summary line printed at the end of notice mode (samers.py line
462). -/
def notices_summary (checked edited : Nat) : String :=
  "Checked:" ++ Nat.repr checked ++ ". Edited:" ++ Nat.repr edited ++ "."

/-- Model of the notice mode run of DuplicatorJob call (samers.py lines
439 to 462) over a list of candidates, which stand for the explicit
originals or the tracked file listing.  On success the counters and the
printed summary line are returned. -/
def notices_run (notices : List String) (counting accept : Bool)
    (cands : List Candidate) : Except PyError (Nat × Nat × String) :=
  match notices_run_go notices counting accept 0 0 cands with
  | Except.error e => Except.error e
  | Except.ok (checked, edited) =>
      Except.ok (checked, edited, notices_summary checked edited)

/-- Python repr of a list of paths, as interpolated by the one-match report
line of diff_all. -/
def pathListRepr (paths : List FPath) : String :=
  "[" ++ String.intercalate ", "
    (paths.map (fun p => "PosixPath(\x27" ++ p ++ "\x27)")) ++ "]"

/-- Model of one iteration of DuplicatorJob.diff_all (samers.py lines 559
to 595) for a single pattern group.  The glob trace carries the yielded
paths and the error raised by glob_each, if any; on an error the partial
difference data is discarded and the error message is reported, matching
the except branch.  Otherwise the diff entries are folded into the paths
found, the differing paths and the difference lines, and one of the four
report branches is written. -/
def diff_all_group (read : FPath → List String) (verbose : Bool)
    (description : String) (globResult : List FPath × Option GlobError) :
    String :=
  match globResult.2 with
  | some e => globErrorStr e ++ "\n"
  | none =>
    let entries := diff_each read globResult.1 none
    let pathsFound : Option (List FPath) :=
      match entries with
      | [] => none
      | e :: _ => some (e.1 :: entries.map (fun t => t.2.1))
    let pathDifferences : List String :=
      entries.filterMap (fun t => t.2.2.map (fun _ => t.2.1))
    let lineDifferences : List String :=
      (entries.filterMap (fun t => t.2.2)).flatten
    let pathCount : Nat :=
      match pathsFound with
      | none => 0
      | some l => l.length
    if pathCount ≤ 0 then
      "Failed, no match for " ++ description ++ ".\n"
    else if pathCount < 2 then
      "Failed, only one match for " ++ description ++ ": \"" ++
        pathListRepr (pathsFound.getD []) ++ "\"\n"
    else if 0 < pathDifferences.length then
      "Differences " ++ description ++ " \"" ++
        (match pathsFound.getD [] with | [] => "" | p :: _ => p) ++ "\"\n" ++
      (if verbose then
        String.join (lineDifferences.map (fun d => "    " ++ d))
      else
        String.join (pathDifferences.map (fun d => "    \"" ++ d ++ "\"\n")))
    else
      "OK " ++ rjust (Nat.repr pathCount) 2 ++ " matches for " ++
        description ++ ".\n"

/-- Model of DuplicatorJob.diff_all (samers.py lines 558 to 595): the
report written for a list of pattern groups, each given as a description
and the glob trace of its patterns. -/
def diff_all (read : FPath → List String) (verbose : Bool)
    (groups : List (String × (List FPath × Option GlobError))) : String :=
  String.join (groups.map (fun g => diff_all_group read verbose g.1 g.2))

/-- Concrete glob function used by witnesses: two matches for pattern p2,
one match for pattern p1, no match for any other pattern. -/
def g0 : String → List FPath :=
  fun pattern =>
    if pattern = "p2" then ["x", "y"]
    else if pattern = "p1" then ["z"]
    else []

/-- C1: the spec claims that insert followed by check on the resulting
content is always OK for files with a known suffix.  Evaluation at the
failing input refutes this and exposes a defect in check: on an empty
original file with suffix .py the leader editor writes exactly the notice
lines, the last edited line matches the last notice line, and check
returns not OK because it only reports success when a further line is
read after the last notice line has matched.  The orchestrator would then
raise its overwritten-file sanity error against its own inserter. -/
theorem c1_insert_then_check_not_ok_on_empty_original :
    insert ["a"] ".py" [] = Except.ok ["# a"] ∧
    check ["a"] ".py" ["# a"] = (false, some 1) :=
  ⟨rfl, rfl⟩

/-- C2: the spec claims check returns OK with full count whenever every
notice line is found in order before the file ends.  Evaluation refutes
this: a file whose last line matches the last notice line has every
notice line found in order, yet check returns not OK with full count,
because success is only signalled by the index probe on a subsequent
line; appending any further line flips the verdict to OK. -/
theorem c2_check_requires_line_after_last_notice_match :
    check ["alpha", "beta"] ".py" ["x alpha y", "z beta w"] = (false, some 2) ∧
    check ["alpha", "beta"] ".py" ["x alpha y", "z beta w", ""] = (true, some 2) :=
  ⟨rfl, rfl⟩

/-- C8: the spec claims notice mode skips directory candidates and still
prints the final summary.  Evaluation at the failing input refutes this:
the business routine returns the Python None for a directory, and the
caller adds that None to its integer edited counter, raising a TypeError
before any summary is printed. -/
theorem c8_directory_candidate_raises_typeerror :
    notices_run ["a"] false true [⟨"somedir", true, "", []⟩] =
      Except.error (PyError.typeError pyAddNoneMsg) :=
  rfl

/-- C9: check on an empty file with a non-exempt suffix and a non-empty
notices block returns not OK with a count of zero. -/
theorem c9_check_empty_file_not_ok (notices : List String) (suffix : String)
    (hexempt : suffix ∉ exempt_suffixes) (_hnotices : notices ≠ []) :
    check notices suffix [] = (false, some 0) := by
  simp [check, hexempt, checkLoop]

/-- C9 witness: concrete instance of the empty-file check theorem. -/
theorem c9_check_empty_file_not_ok_witness :
    ".py" ∉ exempt_suffixes ∧ (["Copyright"] : List String) ≠ [] ∧
    check ["Copyright"] ".py" [] = (false, some 0) :=
  ⟨by decide, by decide,
   c9_check_empty_file_not_ok ["Copyright"] ".py" (by decide) (by decide)⟩

/-- C7: insert on a suffix with no custom editor and no comment leader
mapping raises a definite error rather than skipping the file or guessing
a default leader: the leader editor call is reached with the commentLead
variable unassigned, raising UnboundLocalError. -/
theorem c7_unknown_suffix_insert_raises (notices : List String)
    (suffix : String) (original : List String)
    (hcustom : suffix ∉ custom_suffixes) (hlead : findLeader suffix = none) :
    insert notices suffix original =
      Except.error (PyError.unboundLocal commentLeadUnboundMsg) := by
  simp [insert, hcustom, hlead]

/-- C7 witness: suffix .txt has no custom editor and no leader mapping, so
insert fails on it. -/
theorem c7_unknown_suffix_insert_raises_witness :
    ".txt" ∉ custom_suffixes ∧ findLeader ".txt" = none ∧
    insert ["a"] ".txt" ["hello"] =
      Except.error (PyError.unboundLocal commentLeadUnboundMsg) :=
  ⟨by decide, by rfl,
   c7_unknown_suffix_insert_raises ["a"] ".txt" ["hello"] (by decide) (by rfl)⟩

/-- C5: insert on an XML file whose first line starts with an XML
declaration places the notices comment immediately after that line and
copies the remaining lines unchanged; with no declaration on the first
line the comment comes first, followed by the original content
unchanged. -/
theorem c5_xml_insert_placement (notices : List String) (first : String)
    (rest : List String) :
    (strStartsWith first "<?xml" = true →
      insert notices ".xml" (first :: rest) =
        Except.ok (first :: (noticesXML notices ++ rest))) ∧
    (strStartsWith first "<?xml" = false →
      insert notices ".xml" (first :: rest) =
        Except.ok (noticesXML notices ++ first :: rest)) := by
  constructor <;> intro h <;>
    simp [insert, custom_suffixes, xml_editor, h]

/-- C5 witness: concrete XML insertions with and without a declaration
line. -/
theorem c5_xml_insert_placement_witness :
    insert ["a"] ".xml" ["<?xml version=\"1.0\"?>", "<r/>"] =
      Except.ok ["<?xml version=\"1.0\"?>", "<!--", "    a", "-->", "<r/>"] ∧
    insert ["a"] ".xml" ["<r/>"] =
      Except.ok ["<!--", "    a", "-->", "<r/>"] :=
  ⟨(c5_xml_insert_placement ["a"] "<?xml version=\"1.0\"?>" ["<r/>"]).1
      (by decide),
   (c5_xml_insert_placement ["a"] "<r/>" []).2 (by decide)⟩

/-- C6: insert with a mapped comment leader writes each notice line
prefixed by the leader and a space; when the first original line strips to
the empty string no separator is added, otherwise exactly one blank line
separates the notices from the original content, which is copied
verbatim. -/
theorem c6_leader_insert_blank_separator (notices : List String)
    (suffix commentLead : String) (first : String) (rest : List String)
    (hlead : findLeader suffix = some commentLead) :
    (pystrip first = "" →
      insert notices suffix (first :: rest) =
        Except.ok (notices.map (fun line => commentLead ++ " " ++ line) ++
          first :: rest)) ∧
    (pystrip first ≠ "" →
      insert notices suffix (first :: rest) =
        Except.ok (notices.map (fun line => commentLead ++ " " ++ line) ++
          "" :: first :: rest)) := by
  have hnx : suffix ∉ custom_suffixes := by
    intro hmem
    have hx : suffix = ".xml" := by simpa [custom_suffixes] using hmem
    rw [hx] at hlead
    have hnone : findLeader ".xml" = none := rfl
    rw [hnone] at hlead
    cases hlead
  constructor <;> intro h <;>
    simp [insert, hnx, hlead, leader_editor, h]

/-- C6 witness: concrete plain insertions into a .py file with a blank and
with a non-blank first line. -/
theorem c6_leader_insert_blank_separator_witness :
    insert ["a"] ".py" ["", "x"] = Except.ok ["# a", "", "x"] ∧
    insert ["a"] ".py" ["x", "y"] = Except.ok ["# a", "", "x", "y"] :=
  ⟨(c6_leader_insert_blank_separator ["a"] ".py" "#" "" ["x"] (by rfl)).1
      (by decide),
   (c6_leader_insert_blank_separator ["a"] ".py" "#" "x" ["y"] (by rfl)).2
      (by decide)⟩

/-- C3: a pattern with zero matches makes glob_each raise a configuration
error naming the pattern, a pattern with exactly one match makes it raise
a configuration error naming the pattern and the sole match, and when
every pattern has at least two matches no error is raised and every match
of every pattern is yielded. -/
theorem c3_glob_each_match_counts (glob : String → List FPath) :
    (∀ pattern rest, glob pattern = [] →
      glob_each glob (pattern :: rest) =
        ([], some (GlobError.noMatch pattern))) ∧
    (∀ pattern rest m, glob pattern = [m] →
      glob_each glob (pattern :: rest) =
        ([m], some (GlobError.oneMatch pattern m))) ∧
    (∀ patterns, (∀ q ∈ patterns, 2 ≤ (glob q).length) →
      glob_each glob patterns = ((patterns.map glob).flatten, none)) := by
  refine ⟨?_, ?_, ?_⟩
  · intro pattern rest h
    simp [glob_each, h]
  · intro pattern rest m h
    simp [glob_each, h]
  · intro patterns hall
    induction patterns with
    | nil => simp [glob_each]
    | cons pattern rest ih =>
      have h2 : 2 ≤ (glob pattern).length := hall pattern (by simp)
      obtain ⟨a, b, t, hg⟩ : ∃ a b t, glob pattern = a :: b :: t := by
        rcases hgp : glob pattern with _ | ⟨a, _ | ⟨b, t⟩⟩
        · rw [hgp] at h2; simp at h2
        · rw [hgp] at h2; simp at h2
        · exact ⟨a, b, t, rfl⟩
      have ihr := ih (fun q hq => hall q (by simp [hq]))
      simp [glob_each, hg, ihr]

/-- C3 witness: concrete evaluations of the three branches on the witness
glob function. -/
theorem c3_glob_each_match_counts_witness :
    glob_each g0 ["p0"] = ([], some (GlobError.noMatch "p0")) ∧
    glob_each g0 ["p1"] = (["z"], some (GlobError.oneMatch "p1" "z")) ∧
    glob_each g0 ["p2", "p2"] = (["x", "y", "x", "y"], none) :=
  ⟨(c3_glob_each_match_counts g0).1 "p0" [] (by decide),
   (c3_glob_each_match_counts g0).2.1 "p1" [] "z" (by decide),
   (c3_glob_each_match_counts g0).2.2 ["p2", "p2"] (by decide)⟩

/-- C10: glob_each yields every match of a pattern before deciding whether
to raise for that pattern, so when a failing pattern follows patterns with
two or more matches each, the trace of yielded paths ends with all the
matches of the failing pattern and the error comes after them. -/
theorem c10_glob_each_yields_matches_before_error
    (glob : String → List FPath) (good : List String) (pattern : String)
    (rest : List String) (hgood : ∀ q ∈ good, 2 ≤ (glob q).length)
    (hfail : (glob pattern).length ≤ 1) :
    (glob_each glob (good ++ pattern :: rest)).1 =
      (good.map glob).flatten ++ glob pattern ∧
    (glob_each glob (good ++ pattern :: rest)).2.isSome = true := by
  induction good with
  | nil =>
    rcases hg : glob pattern with _ | ⟨a, _ | ⟨b, t⟩⟩
    · simp [glob_each, hg]
    · simp [glob_each, hg]
    · rw [hg] at hfail; simp at hfail
  | cons q qs ih =>
    have h2 : 2 ≤ (glob q).length := hgood q (by simp)
    obtain ⟨a, b, t, hg⟩ : ∃ a b t, glob q = a :: b :: t := by
      rcases hgp : glob q with _ | ⟨a, _ | ⟨b, t⟩⟩
      · rw [hgp] at h2; simp at h2
      · rw [hgp] at h2; simp at h2
      · exact ⟨a, b, t, rfl⟩
    have ihr := ih (fun r hr => hgood r (by simp [hr]))
    simp [glob_each, hg, ihr.1, ihr.2]

/-- C10 witness: with a two-match pattern followed by a one-match pattern
the sole match of the failing pattern is still yielded, ahead of the
error. -/
theorem c10_glob_each_yields_matches_before_error_witness :
    (glob_each g0 ["p2", "p1", "p0"]).1 = ["x", "y", "z"] ∧
    (glob_each g0 ["p2", "p1", "p0"]).2.isSome = true := by
  have h := c10_glob_each_yields_matches_before_error g0 ["p2"] "p1" ["p0"]
    (by decide) (by decide)
  exact ⟨h.1, h.2⟩

/-- Helper: filterMap with a constantly absent function produces the empty
list. -/
theorem filterMap_const_none {α β : Type} (l : List α) :
    l.filterMap (fun _ => (none : Option β)) = [] := by
  induction l with
  | nil => rfl
  | cons x xs _ => simp

/-- Helper: diff_each_go over paths whose content all equals the baseline
content yields one absent-diff tuple per path distinct from the baseline,
in input order. -/
theorem diff_each_go_all_equal (read : FPath → List String) (p0 : FPath)
    (content : List String) (rest : List FPath)
    (hread : ∀ p ∈ rest, read p = content) :
    diff_each_go read p0 content rest =
      (rest.filter (fun q => q ≠ p0)).map
        (fun q => (p0, q, (none : Option (List String)))) := by
  induction rest with
  | nil => rfl
  | cons q qs ih =>
    have hq : read q = content := hread q (by simp)
    have ihr := ih (fun p hp => hread p (by simp [hp]))
    by_cases hqp : q = p0
    · simp [diff_each_go, hqp, ihr]
    · simp [diff_each_go, hqp, context_diff, hq, ihr]

/-- C4 counterexample: the claim quantifies over every sequence of two or
more paths with identical content, but a group whose every path equals the
baseline path produces no diff tuples at all, so the orchestrator reports
a failure instead of OK for it. -/
theorem c4_counterexample_group_of_equal_paths :
    diff_each (fun _ => ["x"]) ["a", "a"] none = [] ∧
    diff_all_group (fun _ => ["x"]) false "d" (["a", "a"], none) =
      "Failed, no match for d.\n" ∧
    strStartsWith
      (diff_all_group (fun _ => ["x"]) false "d" (["a", "a"], none)) "OK" =
      false :=
  ⟨rfl, by decide, by decide⟩

/-- C4 amended: for every sequence of two or more paths with identical
line content in which at least one path differs from the baseline path,
diff_each yields exactly one absent-diff tuple per path distinct from the
baseline, preserving input order and skipping paths equal to the baseline,
and the audit orchestrator reports the group as OK with the count of
distinct paths found. -/
theorem c4_identical_group_reports_ok (read : FPath → List String)
    (content : List String) (p0 : FPath) (rest : List FPath)
    (description : String) (verbose : Bool)
    (hread : ∀ p ∈ p0 :: rest, read p = content)
    (hdistinct : ∃ q ∈ rest, q ≠ p0) :
    diff_each read (p0 :: rest) none =
      (rest.filter (fun q => q ≠ p0)).map
        (fun q => (p0, q, (none : Option (List String)))) ∧
    diff_all_group read verbose description (p0 :: rest, none) =
      "OK " ++
        rjust (Nat.repr ((rest.filter (fun q => q ≠ p0)).length + 1)) 2 ++
        " matches for " ++ description ++ ".\n" := by
  have h0 : read p0 = content := hread p0 (by simp)
  have hr : ∀ p ∈ rest, read p = content := fun p hp => hread p (by simp [hp])
  have hde : diff_each read (p0 :: rest) none =
      (rest.filter (fun q => q ≠ p0)).map
        (fun q => (p0, q, (none : Option (List String)))) := by
    simp only [diff_each]
    rw [h0]
    exact diff_each_go_all_equal read p0 content rest hr
  obtain ⟨q0, hq0, hq0ne⟩ := hdistinct
  have hq0f : q0 ∈ rest.filter (fun q => q ≠ p0) := by
    simp [List.mem_filter, hq0, hq0ne]
  obtain ⟨f0, fs, hf⟩ : ∃ f0 fs,
      rest.filter (fun q => q ≠ p0) = f0 :: fs := by
    cases hc : rest.filter (fun q => q ≠ p0) with
    | nil => rw [hc] at hq0f; cases hq0f
    | cons f0 fs => exact ⟨f0, fs, rfl⟩
  refine ⟨hde, ?_⟩
  rw [hf] at hde
  simp only [diff_all_group, hf]
  rw [hde]
  have hlt : ¬ (fs.length + 1 + 1 < 2) := by omega
  simp [List.map_map, Function.comp_def, hlt, filterMap_const_none]

/-- C4 witness: two distinct paths with the same content produce a single
absent diff and an OK report with count two. -/
theorem c4_identical_group_reports_ok_witness :
    diff_each (fun _ => ["x"]) ["a", "b"] none =
      [("a", "b", (none : Option (List String)))] ∧
    diff_all_group (fun _ => ["x"]) false "d" (["a", "b"], none) =
      "OK  2 matches for d.\n" := by
  have h := c4_identical_group_reports_ok (fun _ => ["x"]) ["x"] "a" ["b"]
    "d" false (fun p _ => rfl) ⟨"b", by simp, by decide⟩
  exact ⟨h.1, h.2⟩

end Samers
